import Mathlib

/-!
Verification of the performance-envelope engine of `src/main.py`
(`update_output` and its inner `calculate_values`, lines 93-126).

The numeric core is embedded over the real numbers.  Floating-point
results that are non-finite in the source (a division by zero such as
`1/np.sqrt(c_l)` at `c_l = 0`, a division by a zero weight, or
`np.arcsin` applied outside `[-1, 1]`, all of which numpy turns into
`inf`/`nan` values that flow to the plot as gaps) are modelled as
`none`; every finite value is modelled exactly by the corresponding
real-number expression.
-/

/-- The eight input parameters of the Dash form (src/main.py lines 35-70),
with the source's variable names. -/
structure AircraftConfig where
  c_d0 : ℝ
  AR : ℝ
  e0 : ℝ
  w : ℝ
  bhp : ℝ
  area : ℝ
  prop_diameter : ℝ
  rpm : ℝ

/-- `c_d = c_d0 + c_l**2 / (3.14 * e0 * AR)` (line 113). -/
noncomputable def c_d_of (cfg : AircraftConfig) (l : ℝ) : ℝ :=
  cfg.c_d0 + l ^ 2 / (3.14 * cfg.e0 * cfg.AR)

/-- `v = np.sqrt(w / (0.5 * density * area)) * (1 / np.sqrt(c_l))` (line 114). -/
noncomputable def v_of (cfg : AircraftConfig) (density l : ℝ) : ℝ :=
  Real.sqrt (cfg.w / (0.5 * density * cfg.area)) * (1 / Real.sqrt l)

/-- `J = v / ((rpm / 60) * prop_diameter)` (line 116). -/
noncomputable def J_of (cfg : AircraftConfig) (density l : ℝ) : ℝ :=
  v_of cfg density l / ((cfg.rpm / 60) * cfg.prop_diameter)

/-- `prop_efficiency = -12.06*J**4 + 27.19*J**3 - 23.08*J**2 + 9.281*J - 0.8122`
(line 117). -/
noncomputable def prop_efficiency (J : ℝ) : ℝ :=
  -12.06 * J ^ 4 + 27.19 * J ^ 3 - 23.08 * J ^ 2 + 9.281 * J - 0.8122

/-- `p_req = w * np.sqrt(2 * w / (area * density)) * (c_d / c_l**1.5)` (line 118). -/
noncomputable def p_req_of (cfg : AircraftConfig) (density l : ℝ) : ℝ :=
  cfg.w * Real.sqrt (2 * cfg.w / (cfg.area * density)) *
    (c_d_of cfg l / l ^ (1.5 : ℝ))

/-- `shp = bhp * density_ratio; p_av = shp * prop_efficiency` (lines 119-120),
where `bhp` was already converted once by `bhp *= 550` (line 107).
`sigma` stands for the source's `density_ratio` argument. -/
noncomputable def p_av_of (cfg : AircraftConfig) (density sigma l : ℝ) : ℝ :=
  cfg.bhp * 550 * sigma * prop_efficiency (J_of cfg density l)

/-- `roc = (p_av - p_req) / w` (line 121). -/
noncomputable def roc_of (cfg : AircraftConfig) (density sigma l : ℝ) : ℝ :=
  (p_av_of cfg density sigma l - p_req_of cfg density l) / cfg.w

/-- One row of the arrays produced by `calculate_values` for a single lift
coefficient: optional fields are `none` exactly when the floating-point
source produces a non-finite value there. -/
structure PerformancePoint where
  liftCoeff : ℝ
  dragCoeff : ℝ
  velocity : Option ℝ
  efficiency : Option ℝ
  powerRequired : Option ℝ
  powerAvailable : Option ℝ
  rateOfClimb : Option ℝ
  climbAngle : Option ℝ

/-- The sample of `calculate_values` (lines 112-123) at lift coefficient `l`.
At `l = 0` the source's `1/np.sqrt(c_l)` and `c_d/c_l**1.5` divide by zero,
so `velocity` and everything downstream of it are non-finite (`none`); with
`w = 0` the division `(p_av - p_req)/w` is non-finite; `np.arcsin` outside
`[-1, 1]` is `nan` (`none`). -/
noncomputable def calcSample (cfg : AircraftConfig) (density sigma l : ℝ) :
    PerformancePoint where
  liftCoeff := l
  dragCoeff := c_d_of cfg l
  velocity := if 0 < l then some (v_of cfg density l) else none
  efficiency := if 0 < l then some (prop_efficiency (J_of cfg density l)) else none
  powerRequired := if 0 < l then some (p_req_of cfg density l) else none
  powerAvailable := if 0 < l then some (p_av_of cfg density sigma l) else none
  rateOfClimb :=
    if 0 < l ∧ cfg.w ≠ 0 then some (roc_of cfg density sigma l) else none
  climbAngle :=
    if 0 < l ∧ cfg.w ≠ 0 ∧ v_of cfg density l ≠ 0 ∧
        |roc_of cfg density sigma l / v_of cfg density l| ≤ 1 then
      some (Real.arcsin (roc_of cfg density sigma l / v_of cfg density l))
    else none

/-- `c_l = np.linspace(0, 1.3182, 20)` (line 105): sample `i` is
`1.3182 * i / 19`. -/
noncomputable def defaultSweep : List ℝ :=
  (List.range 20).map (fun i : ℕ => 1.3182 * (i : ℝ) / 19)

/-- `calculate_values(density, density_ratio)` (lines 112-123): the whole
lift-coefficient sweep at one altitude. -/
noncomputable def calculate_values (cfg : AircraftConfig) (density sigma : ℝ) :
    List PerformancePoint :=
  defaultSweep.map (calcSample cfg density sigma)

/-- `rpms = [density, density_5000ft, density_10000ft, density_15000ft]`
(lines 98-101 and 109): the source stores the four air densities, in
ascending-altitude order, in a list it happens to call `rpms`. -/
noncomputable def rpms : List ℝ := [2.377e-3, 2.048e-3, 1.756e-3, 1.496e-3]

/-- `density_ratios = [1, 0.86159, 0.738746, 0.62936]` (line 102). -/
noncomputable def density_ratios : List ℝ := [1, 0.86159, 0.738746, 0.62936]

/-- The altitude labels `[0, 5000, 10000, 15000]` zipped onto the results in
the plotting loop (line 132). -/
noncomputable def altitudes : List ℝ := [0, 5000, 10000, 15000]

/-- The numeric part of `update_output` (lines 93-126): no validation of any
input is performed; `calculate_values` is evaluated once per altitude band,
in list order (line 126), and each series is labelled with its altitude
(line 132). -/
noncomputable def update_output (cfg : AircraftConfig) :
    List (ℝ × List PerformancePoint) :=
  (altitudes.zip (rpms.zip density_ratios)).map
    (fun p => (p.1, calculate_values cfg p.2.1 p.2.2))

/-- The sample at index `i` of one altitude's series. -/
noncomputable def sampleAt (cfg : AircraftConfig) (density sigma : ℝ) (i : ℕ) :
    Option PerformancePoint :=
  (calculate_values cfg density sigma)[i]?

/-- The velocity at index `i` of one altitude's series (`none` when the
sample does not exist or its velocity is non-finite). -/
noncomputable def velAt (cfg : AircraftConfig) (density sigma : ℝ) (i : ℕ) :
    Option ℝ :=
  (sampleAt cfg density sigma i).bind (fun p => p.velocity)

/-- The default form values (src/main.py lines 35-70). -/
noncomputable def cfgDef : AircraftConfig :=
  { c_d0 := 0.0317, AR := 5.71, e0 := 0.6, w := 2400, bhp := 180,
    area := 170, prop_diameter := 73 / 12, rpm := 2700 }

/-- Modelled from the spec: the drag polar written with a high-precision pi,
`c_d = c_d0 + c_l^2 / (pi * e0 * AR)`, stated only to compare against the
source's constant 3.14. -/
noncomputable def dragCoefficient_spec (cfg : AircraftConfig) (l : ℝ) : ℝ :=
  cfg.c_d0 + l ^ 2 / (Real.pi * cfg.e0 * cfg.AR)

/-- The default configuration with the weight field zeroed out. -/
noncomputable def cfgW0 : AircraftConfig := { cfgDef with w := 0 }

/-- A valid configuration whose weight is chosen so that the velocity at the
last sweep sample (`c_l = 1.3182`) is exactly 1 ft/s, and whose high rpm
makes the advance ratio there 1/100, where the quartic efficiency is the
negative value -0.7216709306. -/
noncomputable def cfgA : AircraftConfig :=
  { c_d0 := 0.0317, AR := 5.71, e0 := 0.6, w := 0.266335719, bhp := 1,
    area := 170, prop_diameter := 1, rpm := 6000 }

/-- `cfgA` with the rated power doubled. -/
noncomputable def cfgA2 : AircraftConfig := { cfgA with bhp := 2 * cfgA.bhp }

/-- A valid configuration whose weight makes the velocity at the last sweep
sample exactly 1 ft/s and whose rpm of 60 makes the advance ratio there 1,
where the quartic efficiency is the positive value 0.5188. -/
noncomputable def cfgB : AircraftConfig :=
  { c_d0 := 0.0317, AR := 5.71, e0 := 0.6, w := 0.266335719, bhp := 1,
    area := 170, prop_diameter := 1, rpm := 60 }

lemma sampleAt_eq (cfg : AircraftConfig) (density sigma : ℝ) (i : ℕ)
    (hi : i < 20) :
    sampleAt cfg density sigma i =
      some (calcSample cfg density sigma (1.3182 * i / 19)) := by
  unfold sampleAt calculate_values defaultSweep
  rw [List.map_map, List.getElem?_map, List.getElem?_range hi]
  simp [Function.comp]

/-- C1: the claim says `compute` returns exactly 19 points per altitude, the
`c_l = 0` sample being dropped.  The code keeps that sample: at the default
configuration and sea level the series has 20 points, and its first point has
lift coefficient 0 with a non-finite (division-by-zero) velocity. -/
theorem sweep_keeps_cl0_sample :
    (calculate_values cfgDef 2.377e-3 1).length = 20 ∧
      ∃ pt, sampleAt cfgDef 2.377e-3 1 0 = some pt ∧
        pt.liftCoeff = 0 ∧ pt.velocity = none := by
  refine ⟨by simp [calculate_values, defaultSweep], ?_⟩
  refine ⟨calcSample cfgDef 2.377e-3 1 (1.3182 * (0 : ℕ) / 19),
    sampleAt_eq _ _ _ 0 (by norm_num), ?_, ?_⟩
  · simp [calcSample]
  · simp [calcSample]

/-- C2: the claim says an invalid configuration (for example `weight = 0`)
fails with `InvalidConfiguration` before any altitude is solved.  The code
performs no validation at all: with the weight zeroed it still evaluates all
four altitude bands and returns a full 20-sample series for each. -/
theorem no_validation_at_zero_weight :
    (update_output cfgW0).map Prod.fst = altitudes ∧
      (update_output cfgW0).map (fun p => p.2.length) = [20, 20, 20, 20] := by
  constructor <;>
    simp [update_output, altitudes, rpms, density_ratios, calculate_values,
      defaultSweep]

/-- C5: the drag coefficient of every sample is
`c_d0 + c_l^2 / (3.14 * e0 * AR)`, with the constant 3.14 in place of a
high-precision pi (so it differs from the pi version on any sample with
`c_l ≠ 0`), and at `c_l = 0` it is exactly `c_d0`. -/
theorem dragCoefficient_formula (cfg : AircraftConfig) (density sigma : ℝ)
    (he : 0 < cfg.e0) (ha : 0 < cfg.AR) :
    (∀ l, (calcSample cfg density sigma l).dragCoeff =
        cfg.c_d0 + l ^ 2 / (3.14 * cfg.e0 * cfg.AR)) ∧
      (calcSample cfg density sigma 0).dragCoeff = cfg.c_d0 ∧
      (calcSample cfg density sigma 1).dragCoeff ≠ dragCoefficient_spec cfg 1 := by
  refine ⟨fun l => rfl, by simp [calcSample, c_d_of], ?_⟩
  have hpi : (3.14 : ℝ) < Real.pi := by
    have := Real.pi_gt_d6
    linarith
  have h0 : (0 : ℝ) < 3.14 * cfg.e0 * cfg.AR := by positivity
  have h1 : 3.14 * cfg.e0 * cfg.AR < Real.pi * cfg.e0 * cfg.AR := by
    have := mul_pos he ha
    nlinarith
  have h2 : (1 : ℝ) ^ 2 / (Real.pi * cfg.e0 * cfg.AR) <
      (1 : ℝ) ^ 2 / (3.14 * cfg.e0 * cfg.AR) := by
    apply div_lt_div_of_pos_left (by norm_num) h0 h1
  simp only [calcSample, c_d_of, dragCoefficient_spec]
  intro h
  have := add_left_cancel h
  linarith

/-- C5 witness: the theorem applied at the default configuration. -/
theorem dragCoefficient_formula_witness :
    0 < cfgDef.e0 ∧ 0 < cfgDef.AR ∧
      ((∀ l, (calcSample cfgDef 2.377e-3 1 l).dragCoeff =
          cfgDef.c_d0 + l ^ 2 / (3.14 * cfgDef.e0 * cfgDef.AR)) ∧
        (calcSample cfgDef 2.377e-3 1 0).dragCoeff = cfgDef.c_d0 ∧
        (calcSample cfgDef 2.377e-3 1 1).dragCoeff ≠ dragCoefficient_spec cfgDef 1) :=
  ⟨by norm_num [cfgDef], by norm_num [cfgDef],
    dragCoefficient_formula cfgDef 2.377e-3 1 (by norm_num [cfgDef])
      (by norm_num [cfgDef])⟩

/-- C6: the efficiency used at every positive-lift sample is exactly the
unclamped quartic `-12.06 J^4 + 27.19 J^3 - 23.08 J^2 + 9.281 J - 0.8122`
of that sample's advance ratio, and `prop_efficiency 0 = -0.8122` exactly —
a value below 0, so the result is not restricted to `[0, 1]`. -/
theorem propellerEfficiency_quartic (cfg : AircraftConfig)
    (density sigma l : ℝ) (hl : 0 < l) :
    (calcSample cfg density sigma l).efficiency =
        some (-12.06 * J_of cfg density l ^ 4 + 27.19 * J_of cfg density l ^ 3 -
          23.08 * J_of cfg density l ^ 2 + 9.281 * J_of cfg density l - 0.8122) ∧
      prop_efficiency 0 = -0.8122 ∧ prop_efficiency 0 < 0 := by
  refine ⟨by simp [calcSample, hl, prop_efficiency], ?_, ?_⟩ <;>
    norm_num [prop_efficiency]

/-- C6 witness: the theorem applied at the default configuration and the
last sweep sample `c_l = 1.3182`. -/
theorem propellerEfficiency_quartic_witness :
    (0 : ℝ) < 1.3182 ∧
      ((calcSample cfgDef 2.377e-3 1 1.3182).efficiency =
          some (-12.06 * J_of cfgDef 2.377e-3 1.3182 ^ 4 +
            27.19 * J_of cfgDef 2.377e-3 1.3182 ^ 3 -
            23.08 * J_of cfgDef 2.377e-3 1.3182 ^ 2 +
            9.281 * J_of cfgDef 2.377e-3 1.3182 - 0.8122) ∧
        prop_efficiency 0 = -0.8122 ∧ prop_efficiency 0 < 0) :=
  ⟨by norm_num,
    propellerEfficiency_quartic cfgDef 2.377e-3 1 1.3182 (by norm_num)⟩

/-- C7: every run evaluates exactly the four tabulated altitude bands, in
ascending-altitude order, pairing each tabulated density with its
independently tabulated density ratio; the ratio is used only to scale the
rated power (`p_av = (bhp*550) * ratio * eta`), while lift coefficient,
drag coefficient, velocity and power required do not depend on it. -/
theorem four_altitude_bands (cfg : AircraftConfig) :
    update_output cfg =
        [(0, calculate_values cfg 2.377e-3 1),
         (5000, calculate_values cfg 2.048e-3 0.86159),
         (10000, calculate_values cfg 1.756e-3 0.738746),
         (15000, calculate_values cfg 1.496e-3 0.62936)] ∧
      List.Chain' (· < ·) altitudes ∧
      (∀ density s t l,
        (calcSample cfg density s l).liftCoeff = (calcSample cfg density t l).liftCoeff ∧
        (calcSample cfg density s l).dragCoeff = (calcSample cfg density t l).dragCoeff ∧
        (calcSample cfg density s l).velocity = (calcSample cfg density t l).velocity ∧
        (calcSample cfg density s l).efficiency = (calcSample cfg density t l).efficiency ∧
        (calcSample cfg density s l).powerRequired = (calcSample cfg density t l).powerRequired) ∧
      (∀ density s l, 0 < l →
        (calcSample cfg density s l).powerAvailable =
          some (cfg.bhp * 550 * s * prop_efficiency (J_of cfg density l))) := by
  refine ⟨?_, ?_, ?_, ?_⟩
  · simp [update_output, altitudes, rpms, density_ratios]
  · simp only [altitudes, List.chain'_cons, List.chain'_singleton, and_true]
    norm_num
  · intro density s t l
    refine ⟨rfl, rfl, rfl, rfl, rfl⟩
  · intro density s l hl
    simp [calcSample, hl, p_av_of]

lemma v_of_pos (cfg : AircraftConfig) (density l : ℝ) (hw : 0 < cfg.w)
    (hd : 0 < density) (ha : 0 < cfg.area) (hl : 0 < l) :
    0 < v_of cfg density l := by
  have h2 : 0 < Real.sqrt (cfg.w / (0.5 * density * cfg.area)) :=
    Real.sqrt_pos.mpr (by positivity)
  have h3 : 0 < Real.sqrt l := Real.sqrt_pos.mpr hl
  exact mul_pos h2 (by positivity)

/-- C9: over the strictly positive lift-coefficient samples, the velocities
of one altitude's series are strictly decreasing (velocity is proportional
to `1 / sqrt(c_l)` and the sweep ascends in `c_l`). -/
theorem velocity_strictly_decreasing (cfg : AircraftConfig)
    (density sigma : ℝ) (hw : 0 < cfg.w) (ha : 0 < cfg.area) (hd : 0 < density)
    (i j : ℕ) (hi : 0 < i) (hij : i < j) (hj : j < 20) :
    ∃ vi vj, velAt cfg density sigma i = some vi ∧
      velAt cfg density sigma j = some vj ∧ vj < vi := by
  have hi20 : i < 20 := lt_trans hij hj
  have hci : (0 : ℝ) < i := by exact_mod_cast hi
  have hcij : (i : ℝ) < j := by exact_mod_cast hij
  have hli : (0 : ℝ) < 1.3182 * i / 19 := by positivity
  have hlij : (1.3182 : ℝ) * i / 19 < 1.3182 * j / 19 := by gcongr
  have hlj : (0 : ℝ) < 1.3182 * j / 19 := lt_trans hli hlij
  have hA : 0 < Real.sqrt (cfg.w / (0.5 * density * cfg.area)) :=
    Real.sqrt_pos.mpr (by positivity)
  have hsi : 0 < Real.sqrt (1.3182 * i / 19) := Real.sqrt_pos.mpr hli
  have hs : Real.sqrt (1.3182 * i / 19) < Real.sqrt (1.3182 * j / 19) :=
    Real.sqrt_lt_sqrt hli.le hlij
  refine ⟨v_of cfg density (1.3182 * i / 19), v_of cfg density (1.3182 * j / 19),
    ?_, ?_, ?_⟩
  · simp [velAt, sampleAt_eq cfg density sigma i hi20, calcSample, hli]
  · simp [velAt, sampleAt_eq cfg density sigma j hj, calcSample, hlj]
  · unfold v_of
    exact mul_lt_mul_of_pos_left (one_div_lt_one_div_of_lt hsi hs) hA

/-- C9 witness: the theorem applied at the default configuration, sea level,
samples 1 and 2. -/
theorem velocity_strictly_decreasing_witness :
    0 < cfgDef.w ∧ 0 < cfgDef.area ∧ (0 : ℝ) < 2.377e-3 ∧
      0 < 1 ∧ 1 < 2 ∧ 2 < 20 ∧
      ∃ vi vj, velAt cfgDef 2.377e-3 1 1 = some vi ∧
        velAt cfgDef 2.377e-3 1 2 = some vj ∧ vj < vi :=
  ⟨by norm_num [cfgDef], by norm_num [cfgDef], by norm_num, by norm_num,
    by norm_num, by norm_num,
    velocity_strictly_decreasing cfgDef 2.377e-3 1 (by norm_num [cfgDef])
      (by norm_num [cfgDef]) (by norm_num) 1 2 (by norm_num) (by norm_num)
      (by norm_num)⟩

/-- C10: at a fixed positive-lift sweep sample, the velocity at a thinner-air
(higher) altitude is strictly greater than at a denser (lower) one, and
equals the lower-altitude velocity scaled by the constant factor
`sqrt(density_low / density_high)` — so each altitude's series is the
sea-level series scaled by that factor. -/
theorem velocity_altitude_scaling (cfg : AircraftConfig) (sigma tau : ℝ)
    (hw : 0 < cfg.w) (ha : 0 < cfg.area) (dlo dhi : ℝ) (hdhi : 0 < dhi)
    (hdd : dhi < dlo) (i : ℕ) (hi : 0 < i) (h20 : i < 20) :
    ∃ vlo vhi, velAt cfg dlo sigma i = some vlo ∧
      velAt cfg dhi tau i = some vhi ∧ vlo < vhi ∧
      vhi = Real.sqrt (dlo / dhi) * vlo := by
  have hdlo : 0 < dlo := lt_trans hdhi hdd
  have hci : (0 : ℝ) < i := by exact_mod_cast hi
  have hli : (0 : ℝ) < 1.3182 * i / 19 := by positivity
  refine ⟨v_of cfg dlo (1.3182 * i / 19), v_of cfg dhi (1.3182 * i / 19),
    ?_, ?_, ?_, ?_⟩
  · simp [velAt, sampleAt_eq cfg dlo sigma i h20, calcSample, hli]
  · simp [velAt, sampleAt_eq cfg dhi tau i h20, calcSample, hli]
  · have hvlo : 0 < v_of cfg dlo (1.3182 * i / 19) :=
      v_of_pos cfg dlo _ hw hdlo ha hli
    have hfac : 1 < Real.sqrt (dlo / dhi) := by
      have h1 : (1 : ℝ) < dlo / dhi := (one_lt_div hdhi).mpr hdd
      have := Real.sqrt_lt_sqrt (by norm_num) h1
      simpa [Real.sqrt_one] using this
    have hscale : v_of cfg dhi (1.3182 * i / 19) =
        Real.sqrt (dlo / dhi) * v_of cfg dlo (1.3182 * i / 19) := by
      unfold v_of
      rw [← mul_assoc, ← Real.sqrt_mul (by positivity : (0:ℝ) ≤ dlo / dhi)]
      congr 2
      field_simp
      ring
    rw [hscale]
    nlinarith
  · unfold v_of
    rw [← mul_assoc, ← Real.sqrt_mul (by positivity : (0:ℝ) ≤ dlo / dhi)]
    congr 2
    field_simp
    ring

/-- C10 witness: the theorem applied at the default configuration, between
sea level and the 5000 ft band, sample 1. -/
theorem velocity_altitude_scaling_witness :
    0 < cfgDef.w ∧ 0 < cfgDef.area ∧ (0 : ℝ) < 2.048e-3 ∧
      (2.048e-3 : ℝ) < 2.377e-3 ∧ 0 < 1 ∧ 1 < 20 ∧
      ∃ vlo vhi, velAt cfgDef 2.377e-3 1 1 = some vlo ∧
        velAt cfgDef 2.048e-3 0.86159 1 = some vhi ∧ vlo < vhi ∧
        vhi = Real.sqrt (2.377e-3 / 2.048e-3) * vlo :=
  ⟨by norm_num [cfgDef], by norm_num [cfgDef], by norm_num, by norm_num,
    by norm_num, by norm_num,
    velocity_altitude_scaling cfgDef 1 0.86159 (by norm_num [cfgDef])
      (by norm_num [cfgDef]) 2.377e-3 2.048e-3 (by norm_num) (by norm_num)
      1 (by norm_num) (by norm_num)⟩

lemma calculate_values_length (cfg : AircraftConfig) (density sigma : ℝ) :
    (calculate_values cfg density sigma).length = 20 := by
  simp [calculate_values, defaultSweep]

lemma sampleAt_is_some (cfg : AircraftConfig) (density sigma : ℝ) (i : ℕ)
    (pt : PerformancePoint) (hpt : sampleAt cfg density sigma i = some pt) :
    i < 20 := by
  by_contra h20
  rw [sampleAt, List.getElem?_eq_none] at hpt
  · exact Option.noConfusion hpt
  · rw [calculate_values_length]
    omega

/-- C3: a sample whose climb-gradient ratio `roc/v` exceeds 1 in magnitude
gets `climbAngle = none` (the plotted gap numpy's `nan` produces), never a
numeric angle; a sample with the ratio in range gets exactly
`arcsin(roc/v)`; every positive-lift sample still carries all its other
numeric fields; and the whole computation is total — all four altitude
bands with all 20 samples are always produced, so nothing escapes
`update_output`. -/
theorem arcsin_out_of_domain_is_gap (cfg : AircraftConfig)
    (density sigma : ℝ) (hw : 0 < cfg.w) (ha : 0 < cfg.area)
    (hd : 0 < density) :
    (∀ i pt r v, sampleAt cfg density sigma i = some pt →
        pt.rateOfClimb = some r → pt.velocity = some v →
        (1 < |r / v| → pt.climbAngle = none) ∧
        (|r / v| ≤ 1 → pt.climbAngle = some (Real.arcsin (r / v)))) ∧
      (∀ i, 0 < i → i < 20 →
        ∃ pt, sampleAt cfg density sigma i = some pt ∧
          (∃ v, pt.velocity = some v) ∧ (∃ e, pt.efficiency = some e) ∧
          (∃ p, pt.powerRequired = some p) ∧
          (∃ p, pt.powerAvailable = some p) ∧
          (∃ r, pt.rateOfClimb = some r)) ∧
      (update_output cfg).length = 4 ∧
      (∀ s ∈ update_output cfg, s.2.length = 20) := by
  refine ⟨?_, ?_, ?_, ?_⟩
  · intro i pt r v hpt hr hv
    have h20 : i < 20 := sampleAt_is_some cfg density sigma i pt hpt
    rw [sampleAt_eq cfg density sigma i h20] at hpt
    injection hpt with hpt
    subst hpt
    by_cases hl : 0 < (1.3182 * i / 19 : ℝ)
    · have hw' : cfg.w ≠ 0 := hw.ne'
      simp only [calcSample, if_pos hl, if_pos (And.intro hl hw')] at hr hv
      injection hr with hr
      injection hv with hv
      subst hr
      subst hv
      have hv0 : v_of cfg density (1.3182 * i / 19) ≠ 0 :=
        (v_of_pos cfg density _ hw hd ha hl).ne'
      constructor
      · intro hgt
        simp [calcSample, hl, hw', hv0, not_le.mpr hgt]
      · intro hle
        simp [calcSample, hl, hw', hv0, hle]
    · simp [calcSample, hl] at hr
  · intro i hi h20
    have hci : (0 : ℝ) < i := by exact_mod_cast hi
    have hl : (0 : ℝ) < 1.3182 * i / 19 := by positivity
    exact ⟨calcSample cfg density sigma (1.3182 * i / 19),
      sampleAt_eq cfg density sigma i h20,
      ⟨v_of cfg density (1.3182 * i / 19), by simp [calcSample, hl]⟩,
      ⟨prop_efficiency (J_of cfg density (1.3182 * i / 19)),
        by simp [calcSample, hl]⟩,
      ⟨p_req_of cfg density (1.3182 * i / 19), by simp [calcSample, hl]⟩,
      ⟨p_av_of cfg density sigma (1.3182 * i / 19), by simp [calcSample, hl]⟩,
      ⟨roc_of cfg density sigma (1.3182 * i / 19),
        by simp [calcSample, hl, hw.ne']⟩⟩
  · simp [update_output, altitudes, rpms, density_ratios]
  · intro s hs
    simp only [update_output, altitudes, rpms, density_ratios] at hs
    simp only [List.zip_cons_cons, List.zip_nil_right, List.map_cons,
      List.map_nil, List.mem_cons, List.not_mem_nil, or_false] at hs
    rcases hs with h | h | h | h <;> subst h <;>
      exact calculate_values_length cfg _ _

/-- C3 witness: the theorem applied at the default configuration and sea
level. -/
theorem arcsin_out_of_domain_is_gap_witness :
    0 < cfgDef.w ∧ 0 < cfgDef.area ∧ (0 : ℝ) < 2.377e-3 ∧
      ((∀ i pt r v, sampleAt cfgDef 2.377e-3 1 i = some pt →
          pt.rateOfClimb = some r → pt.velocity = some v →
          (1 < |r / v| → pt.climbAngle = none) ∧
          (|r / v| ≤ 1 → pt.climbAngle = some (Real.arcsin (r / v)))) ∧
        (∀ i, 0 < i → i < 20 →
          ∃ pt, sampleAt cfgDef 2.377e-3 1 i = some pt ∧
            (∃ v, pt.velocity = some v) ∧ (∃ e, pt.efficiency = some e) ∧
            (∃ p, pt.powerRequired = some p) ∧
            (∃ p, pt.powerAvailable = some p) ∧
            (∃ r, pt.rateOfClimb = some r)) ∧
        (update_output cfgDef).length = 4 ∧
        (∀ s ∈ update_output cfgDef, s.2.length = 20)) :=
  ⟨by norm_num [cfgDef], by norm_num [cfgDef], by norm_num,
    arcsin_out_of_domain_is_gap cfgDef 2.377e-3 1 (by norm_num [cfgDef])
      (by norm_num [cfgDef]) (by norm_num)⟩

lemma v_of_eq_one (cfg : AircraftConfig) (density l : ℝ) (hl : 0 < l)
    (h : cfg.w / (0.5 * density * cfg.area) = l) : v_of cfg density l = 1 := by
  unfold v_of
  rw [h, mul_one_div, div_self (Real.sqrt_pos.mpr hl).ne']

lemma cfgA_radicand : cfgA.w / (0.5 * 2.377e-3 * cfgA.area) = 1.3182 := by
  norm_num [cfgA]

lemma cfgA2_radicand : cfgA2.w / (0.5 * 2.377e-3 * cfgA2.area) = 1.3182 := by
  norm_num [cfgA2, cfgA]

lemma cfgA_J : J_of cfgA 2.377e-3 1.3182 = 1 / 100 := by
  unfold J_of
  rw [v_of_eq_one cfgA 2.377e-3 1.3182 (by norm_num) cfgA_radicand]
  norm_num [cfgA]

lemma cfgA2_J : J_of cfgA2 2.377e-3 1.3182 = 1 / 100 := by
  unfold J_of
  rw [v_of_eq_one cfgA2 2.377e-3 1.3182 (by norm_num) cfgA2_radicand]
  norm_num [cfgA2, cfgA]

/-- C4, counterexample: at a valid configuration, the last sea-level sweep
sample has propeller efficiency -0.7216709306 < 0, so doubling the rated
power strictly *decreases* the power available there, refuting the claim
that it strictly increases at every sample and altitude. -/
theorem doubling_power_counterexample :
    ∃ pt pt2, sampleAt cfgA 2.377e-3 1 19 = some pt ∧
      sampleAt cfgA2 2.377e-3 1 19 = some pt2 ∧
      cfgA2 = { cfgA with bhp := 2 * cfgA.bhp } ∧
      pt.powerAvailable = some (-396.91901183) ∧
      pt2.powerAvailable = some (-793.83802366) ∧
      (-793.83802366 : ℝ) < -396.91901183 := by
  have h19 : (1.3182 : ℝ) * (19 : ℕ) / 19 = 1.3182 := by norm_num
  refine ⟨calcSample cfgA 2.377e-3 1 (1.3182 * (19 : ℕ) / 19),
    calcSample cfgA2 2.377e-3 1 (1.3182 * (19 : ℕ) / 19),
    sampleAt_eq _ _ _ 19 (by norm_num),
    sampleAt_eq _ _ _ 19 (by norm_num), rfl, ?_, ?_, by norm_num⟩
  · rw [h19]
    simp only [calcSample, if_pos (by norm_num : (0:ℝ) < 1.3182)]
    rw [p_av_of, cfgA_J]
    norm_num [prop_efficiency, cfgA]
  · rw [h19]
    simp only [calcSample, if_pos (by norm_num : (0:ℝ) < 1.3182)]
    rw [p_av_of, cfgA2_J]
    norm_num [prop_efficiency, cfgA2, cfgA]

/-- C4 amended: doubling the rated power, holding everything else fixed,
strictly increases the power available at every sweep sample and altitude
at which the sample's propeller efficiency is strictly positive (the
density ratio being positive); at samples with negative efficiency it
strictly decreases instead. -/
theorem doubling_power_increases_powerAvailable (cfg : AircraftConfig)
    (density sigma : ℝ) (hb : 0 < cfg.bhp) (hs : 0 < sigma) (i : ℕ)
    (pt pt2 : PerformancePoint)
    (hpt : sampleAt cfg density sigma i = some pt)
    (hpt2 : sampleAt { cfg with bhp := 2 * cfg.bhp } density sigma i = some pt2)
    (e : ℝ) (he : pt.efficiency = some e) (hepos : 0 < e) :
    ∃ p p2, pt.powerAvailable = some p ∧ pt2.powerAvailable = some p2 ∧
      p < p2 := by
  have h20 : i < 20 := sampleAt_is_some cfg density sigma i pt hpt
  rw [sampleAt_eq cfg density sigma i h20] at hpt
  rw [sampleAt_eq _ density sigma i h20] at hpt2
  injection hpt with hpt
  injection hpt2 with hpt2
  subst hpt
  subst hpt2
  by_cases hl : 0 < (1.3182 * i / 19 : ℝ)
  · simp only [calcSample, if_pos hl] at he ⊢
    injection he with he
    refine ⟨p_av_of cfg density sigma (1.3182 * i / 19),
      p_av_of { cfg with bhp := 2 * cfg.bhp } density sigma (1.3182 * i / 19),
      rfl, rfl, ?_⟩
    subst he
    have h1 : p_av_of cfg density sigma (1.3182 * i / 19) =
        cfg.bhp * 550 * sigma *
          prop_efficiency (J_of cfg density (1.3182 * i / 19)) := rfl
    have h2 : p_av_of { cfg with bhp := 2 * cfg.bhp } density sigma
          (1.3182 * i / 19) =
        2 * cfg.bhp * 550 * sigma *
          prop_efficiency (J_of cfg density (1.3182 * i / 19)) := rfl
    rw [h1, h2]
    nlinarith [mul_pos (mul_pos (mul_pos hb (by norm_num : (0:ℝ) < 550)) hs)
      hepos]
  · simp [calcSample, hl] at he

lemma cfgB_J : J_of cfgB 2.377e-3 1.3182 = 1 := by
  unfold J_of
  rw [v_of_eq_one cfgB 2.377e-3 1.3182 (by norm_num) (by norm_num [cfgB])]
  norm_num [cfgB]

lemma cfgB_efficiency :
    (calcSample cfgB 2.377e-3 1 (1.3182 * (19 : ℕ) / 19)).efficiency =
      some 0.5188 := by
  have h19 : (1.3182 : ℝ) * (19 : ℕ) / 19 = 1.3182 := by norm_num
  rw [h19]
  simp only [calcSample, if_pos (by norm_num : (0:ℝ) < 1.3182)]
  rw [cfgB_J]
  norm_num [prop_efficiency]

/-- C4 witness: the amended theorem applied at a configuration whose last
sweep sample has advance ratio 1 and hence the positive efficiency 0.5188. -/
theorem doubling_power_increases_powerAvailable_witness :
    0 < cfgB.bhp ∧ (0 : ℝ) < 1 ∧
      sampleAt cfgB 2.377e-3 1 19 =
        some (calcSample cfgB 2.377e-3 1 (1.3182 * (19 : ℕ) / 19)) ∧
      sampleAt { cfgB with bhp := 2 * cfgB.bhp } 2.377e-3 1 19 =
        some (calcSample { cfgB with bhp := 2 * cfgB.bhp } 2.377e-3 1
          (1.3182 * (19 : ℕ) / 19)) ∧
      (calcSample cfgB 2.377e-3 1 (1.3182 * (19 : ℕ) / 19)).efficiency =
        some 0.5188 ∧ (0 : ℝ) < 0.5188 ∧
      ∃ p p2,
        (calcSample cfgB 2.377e-3 1 (1.3182 * (19 : ℕ) / 19)).powerAvailable =
          some p ∧
        (calcSample { cfgB with bhp := 2 * cfgB.bhp } 2.377e-3 1
          (1.3182 * (19 : ℕ) / 19)).powerAvailable = some p2 ∧ p < p2 :=
  ⟨by norm_num [cfgB], by norm_num,
    sampleAt_eq _ _ _ 19 (by norm_num),
    sampleAt_eq _ _ _ 19 (by norm_num),
    cfgB_efficiency, by norm_num,
    doubling_power_increases_powerAvailable cfgB 2.377e-3 1
      (by norm_num [cfgB]) (by norm_num) 19 _ _
      (sampleAt_eq _ _ _ 19 (by norm_num)) (sampleAt_eq _ _ _ 19 (by norm_num))
      0.5188 cfgB_efficiency (by norm_num)⟩

set_option maxHeartbeats 1000000 in
/-- C8: for the default configuration at sea level, the velocity computed at
sweep index 1 (`c_l = 1.3182/19`, about 0.0694) is within 0.5 ft/s — a
relative error near 1.2e-3 — of the reference value
`sqrt(2400/(0.5*2.377e-3*170)) * (1/sqrt(0.0694))`. -/
theorem reference_velocity_matches :
    ∃ v1, velAt cfgDef 2.377e-3 1 1 = some v1 ∧
      |v1 - Real.sqrt (2400 / (0.5 * 2.377e-3 * 170)) *
        (1 / Real.sqrt 0.0694)| < 1 / 2 := by
  have hl : (0 : ℝ) < 1.3182 * (1 : ℕ) / 19 := by norm_num
  refine ⟨v_of cfgDef 2.377e-3 (1.3182 * (1 : ℕ) / 19), ?_, ?_⟩
  · rw [velAt, sampleAt_eq cfgDef 2.377e-3 1 1 (by norm_num)]
    rw [Option.some_bind]
    rw [show (calcSample cfgDef 2.377e-3 1 (1.3182 * (1 : ℕ) / 19)).velocity =
      if 0 < (1.3182 * (1 : ℕ) / 19 : ℝ) then
        some (v_of cfgDef 2.377e-3 (1.3182 * (1 : ℕ) / 19)) else none from rfl]
    rw [if_pos hl]
  · unfold v_of
    rw [show (1.3182 : ℝ) * ((1 : ℕ) : ℝ) / 19 = 1.3182 / 19 by norm_num,
      show cfgDef.w / (0.5 * 2.377e-3 * cfgDef.area) =
        2400 / (0.5 * 2.377e-3 * 170) by norm_num [cfgDef]]
    set A := Real.sqrt (2400 / (0.5 * 2.377e-3 * 170)) with hA_def
    set s1 := Real.sqrt ((1.3182 : ℝ) / 19) with hs1_def
    set s2 := Real.sqrt (0.0694 : ℝ) with hs2_def
    have hA0 : 0 ≤ A := Real.sqrt_nonneg _
    have hs10 : 0 ≤ s1 := Real.sqrt_nonneg _
    have hs20 : 0 ≤ s2 := Real.sqrt_nonneg _
    have hA2 : A ^ 2 = 2400 / (0.5 * 2.377e-3 * 170) :=
      Real.sq_sqrt (by norm_num)
    have hs12 : s1 ^ 2 = (1.3182 : ℝ) / 19 := Real.sq_sqrt (by norm_num)
    have hs22 : s2 ^ 2 = (0.0694 : ℝ) := Real.sq_sqrt (by norm_num)
    have hAl : (108.95 : ℝ) < A := by nlinarith [hA2, hA0]
    have hAu : A < 109 := by nlinarith [hA2, hA0]
    have hs1l : (0.26336 : ℝ) < s1 := by nlinarith [hs12, hs10]
    have hs1u : s1 < 0.26343 := by nlinarith [hs12, hs10]
    have hs2l : (0.2634 : ℝ) < s2 := by nlinarith [hs22, hs20]
    have hs2u : s2 < 0.26348 := by nlinarith [hs22, hs20]
    have hs1pos : (0 : ℝ) < s1 := by linarith
    have hs2pos : (0 : ℝ) < s2 := by linarith
    have hu1pos : (0 : ℝ) < 1 / s1 := by positivity
    have hu2pos : (0 : ℝ) < 1 / s2 := by positivity
    have hu1l : (3.796 : ℝ) < 1 / s1 := by
      rw [lt_div_iff₀ hs1pos]
      linarith
    have hu1u : (1 / s1 : ℝ) < 3.7971 := by
      rw [div_lt_iff₀ hs1pos]
      linarith
    have hu2l : (3.7953 : ℝ) < 1 / s2 := by
      rw [lt_div_iff₀ hs2pos]
      linarith
    have hu2u : (1 / s2 : ℝ) < 3.7966 := by
      rw [div_lt_iff₀ hs2pos]
      linarith
    have hv1u : A * (1 / s1) < 413.89 := by
      nlinarith [mul_pos (sub_pos.mpr hAu) hu1pos]
    have hv1l : (413.57 : ℝ) < A * (1 / s1) := by
      nlinarith [mul_pos (sub_pos.mpr hAl) hu1pos]
    have hru : A * (1 / s2) < 413.83 := by
      nlinarith [mul_pos (sub_pos.mpr hAu) hu2pos]
    have hrl : (413.49 : ℝ) < A * (1 / s2) := by
      nlinarith [mul_pos (sub_pos.mpr hAl) hu2pos]
    rw [abs_sub_lt_iff]
    constructor <;> linarith
